import Mathlib

/-!
Shallow embedding of `src/rest.py` (haello-Rest-Service): a web.py REST
endpoint `/enrich` that extracts text from an uploaded image with an OCR
engine (pytesseract), detects the language of the text (goslate), optionally
re-runs extraction with the detected language as a hint, translates the text
into a target language (goslate) and returns a JSON triple.

External collaborators (filesystem storage, the OCR engine, the
detection/translation service, the base64 decoder and the uuid generator) are
modelled as an explicit oracle environment `Env`.  Each pipeline function
returns an `Except Fault` result paired with the trace of external calls it
performed, so that claims about which collaborators were invoked (and with
which arguments, and in which order) can be stated and proved.
-/

namespace Rest

/-- The three web.py exception classes raised by `rest.py`:
`web.badrequest` (HTTP 400), `web.internalerror` (HTTP 500) and
`web.notfound` (HTTP 404), each carrying its message. -/
inductive Fault where
  | badRequest (msg : String)
  | internalError (msg : String)
  | notFound (msg : String)
deriving DecidableEq, Repr

/-- Observable calls to external collaborators, recorded in order:
a storage write attempt (the `open/write/close` of the try block), an
extraction pass (a call of `get_text`), a detection-service call
(`gs.detect`), and a translation-service call (`gs.translate`). -/
inductive Event where
  | store (path : String)
  | extract (path : String) (hint : Option String)
  | detectCall (text : String)
  | translateCall (text : String) (target : String) (source : Option String)
deriving DecidableEq, Repr

/-- The JSON success payload built by `get_json`:
`{"detected": ..., "text": ..., "translation": ...}`. -/
structure Response where
  detected : String
  text : String
  translation : String
deriving DecidableEq, Repr

/-- The uploaded file part `data.image`: its raw bytes (`image.value`,
modelled as a string) and its client-side filename (`image.filename`). -/
structure ImagePart where
  value : String
  filename : String
deriving DecidableEq, Repr

/-- The multipart form fields of a POST request to `/enrich`.  A field is
`none` when absent from the form data (`'field' in data` is false). -/
structure Request where
  text : Option String
  source : Option String
  target : Option String
  image : Option ImagePart
  filetype : Option String
deriving DecidableEq, Repr

/-- Oracle environment for the external collaborators of one request:
`b64decode` is Python's `base64.b64decode`; `image_id` is the `uuid.uuid4()`
drawn for this request; `storeOk` tells whether the `open/write/close` of the
image succeeds; `openImage path` tells whether `PIL.Image.open` succeeds on
`path`; `ocr path hint` is `pytesseract.image_to_string` (`Except.error` when
the engine raises, otherwise the extracted text, possibly empty); `detect` is
`gs.detect` (`none` when the service returns nothing); `translate` is
`gs.translate` (`Except.error` when the service raises); `gs_languages` is
the lookup into the `gs.get_languages()` table. -/
structure Env where
  b64decode : String → String
  image_id : String
  storeOk : Bool
  openImage : String → Bool
  ocr : String → Option String → Except Unit String
  detect : String → Option String
  translate : String → String → Option String → Except Unit String
  gs_languages : String → Option String

/-- Python's `str.lower()` (used on the `source`, `target` and `filetype`
fields), modelled as character-wise lowering. -/
def lower (s : String) : String := ⟨s.data.map Char.toLower⟩

/-- `supported_filetypes = ['jpg']` from `rest.py`. -/
def supported_filetypes : List String := ["jpg"]

/-- `supported_languages = ['en', 'de', 'it']` from `rest.py`. -/
def supported_languages : List String := ["en", "de", "it"]

/-- `supported_languages_tesseract` from `rest.py`: the mapping from
two-letter codes to tesseract identifiers. -/
def supported_languages_tesseract : List (String × String) :=
  [("en", "eng"), ("de", "deu"), ("it", "ita"),
   ("fr", "fra"), ("es", "spa"), ("sv", "swe")]

/-- Dictionary lookup `supported_languages_tesseract[l]`; `none` models a
`KeyError` (`l not in supported_languages_tesseract`). -/
def tesseract_code (l : String) : Option String :=
  supported_languages_tesseract.lookup l

/-- Sequencing of two pipeline steps: an exception in the first step
propagates (keeping the trace accumulated so far); otherwise the second
step runs and the traces are concatenated. -/
def rbind {α β : Type} (x : Except Fault α × List Event)
    (f : α → Except Fault β × List Event) : Except Fault β × List Event :=
  match x with
  | (Except.error e, t) => (Except.error e, t)
  | (Except.ok a, t) => ((f a).1, t ++ (f a).2)

/-- `Enrich.get_text` (rest.py lines 194-238): raises 500 if the path is
invalid, 500 if `Image.open` fails, 500 if pytesseract raises, 404
(`web.notfound`) if the extracted text is empty, and otherwise returns the
text.  One `Event.extract` is recorded per call (the method logs its entry
unconditionally). -/
def get_text (env : Env) (image_path : String) (source_lang : Option String) :
    Except Fault String × List Event :=
  (if image_path.length = 0 then
     Except.error (Fault.internalError "Path to image is not valid.")
   else if env.openImage image_path = false then
     Except.error (Fault.internalError "Could not open image.")
   else
     match env.ocr image_path source_lang with
     | Except.error _ =>
         Except.error (Fault.internalError "Could not extract text from image.")
     | Except.ok text =>
         if text.length = 0 then
           Except.error (Fault.notFound "No text detected in image.")
         else Except.ok text,
   [Event.extract image_path source_lang])

/-- `Enrich.get_language` (rest.py lines 281-307): raises 500 on empty text,
otherwise calls `gs.detect` and substitutes `"unk"` when the service
returns nothing. -/
def get_language (env : Env) (text : String) : Except Fault String × List Event :=
  if text.length = 0 then
    (Except.error (Fault.internalError "No text specified."), [])
  else
    (Except.ok ((env.detect text).getD "unk"), [Event.detectCall text])

/-- The display name computed by `Enrich.get_language_name` when the
language is non-empty: `"detected:" ++ name` when the `gs.get_languages()`
table knows the code, else `"Unknown"`. -/
def language_name (env : Env) (language : String) : String :=
  match env.gs_languages language with
  | some name => "detected:" ++ name
  | none => "Unknown"

/-- `Enrich.get_language_name` (rest.py lines 309-336): raises 500 on an
empty language code, otherwise returns the display name. -/
def get_language_name (env : Env) (language : String) :
    Except Fault String × List Event :=
  if language.length = 0 then
    (Except.error (Fault.internalError "No language specified."), [])
  else
    (Except.ok (language_name env language), [])

/-- `Enrich.get_translation` (rest.py lines 240-279): raises 500 on missing
or empty text, 500 on an empty target language, 500 if `gs.translate`
raises, otherwise returns the translation.  The `Event.translateCall` is
recorded exactly when the external service is invoked. -/
def get_translation (env : Env) (text : Option String) (target_lang : String)
    (source_lang : Option String) : Except Fault String × List Event :=
  match text with
  | none => (Except.error (Fault.internalError "No text specified."), [])
  | some t =>
    if t.length = 0 then
      (Except.error (Fault.internalError "No text specified."), [])
    else if target_lang.length = 0 then
      (Except.error (Fault.internalError "Target language is not valid."), [])
    else
      (match env.translate t target_lang source_lang with
       | Except.error _ =>
           Except.error (Fault.internalError "Could not translate image.")
       | Except.ok tr => Except.ok tr,
       [Event.translateCall t target_lang source_lang])

/-- `Enrich.get_json` (rest.py lines 338-373): raises 500 if the text, the
translation or the detected language is missing or empty, otherwise builds
the JSON payload. -/
def get_json (text : Option String) (translation : String)
    (detected_lang : String) : Except Fault Response :=
  match text with
  | none => Except.error (Fault.internalError "No text specified.")
  | some t =>
    if t.length = 0 then
      Except.error (Fault.internalError "No text specified.")
    else if translation.length = 0 then
      Except.error (Fault.internalError "No translation specified.")
    else if detected_lang.length = 0 then
      Except.error (Fault.internalError "Detected language is not valid.")
    else Except.ok { detected := detected_lang, text := t, translation := translation }

/-- The body of the `finally` block of `Enrich.POST` (rest.py lines
143-159): first extraction pass (with the declared source's tesseract code
as hint when a validated source exists, no hint otherwise), detection on the
extracted text, the conditional second extraction pass (fires exactly when
no validated source was declared and the detected code is a key of
`supported_languages_tesseract`, and its text replaces the first pass's
text), and the display-name fallback on the detected code.  Returns the
final `(text_from_image, detected_lang)` pair.  A `KeyError` on the
tesseract table (impossible at the call sites, where the source is
validated) is modelled as a 500. -/
def finallyBlock (env : Env) (final_image_path : String)
    (source_lang : Option String) : Except Fault (String × String) × List Event :=
  rbind
    (match source_lang with
     | none => get_text env final_image_path none
     | some s =>
       match tesseract_code s with
       | some c => get_text env final_image_path (some c)
       | none => (Except.error (Fault.internalError "KeyError"), []))
    (fun text1 =>
      rbind (get_language env text1) (fun detected0 =>
        rbind
          (match source_lang, tesseract_code detected0 with
           | none, some c => get_text env final_image_path (some c)
           | _, _ => (Except.ok text1, []))
          (fun text2 =>
            rbind
              (if detected0 ∈ supported_languages then (Except.ok detected0, [])
               else get_language_name env detected0)
              (fun detected1 => (Except.ok (text2, detected1), [])))))

/-- The image-mode branch of `Enrich.POST` (rest.py lines 111-159):
validation of the image bytes, filename and filetype, then the storage
attempt followed by the `finally` block.  Python's try/except/finally
semantics: the `finally` block always runs after the storage attempt; an
exception raised inside it replaces any pending storage fault, while if it
completes normally a pending storage fault (the 500 raised by the `except`
clause) propagates. -/
def imagePhase (env : Env) (image : ImagePart) (filetype_field : Option String)
    (source_lang : Option String) : Except Fault (String × String) × List Event :=
  if image.value.length = 0 then
    (Except.error (Fault.badRequest "No image to process. No value."), [])
  else if image.filename.length = 0 then
    (Except.error (Fault.badRequest "No image to process. No filename."), [])
  else
    match filetype_field with
    | none => (Except.error (Fault.badRequest "No file-type specified."), [])
    | some ft =>
      let filetype := lower ft
      if filetype ∉ supported_filetypes then
        (Except.error (Fault.badRequest "No support for this filetype."), [])
      else
        let final_image_path := "uploads" ++ "/" ++ (env.image_id ++ "." ++ filetype)
        let fin := finallyBlock env final_image_path source_lang
        (match fin.1 with
         | Except.error e => Except.error e
         | Except.ok r =>
           if env.storeOk then Except.ok r
           else Except.error (Fault.internalError "Server: Could not store image."),
         Event.store final_image_path :: fin.2)

/-- Normalization of the declared source language (rest.py lines 105-109):
lower-cased, then silently dropped when not in `supported_languages`. -/
def normalize_source (source : Option String) : Option String :=
  match source.map lower with
  | some s => if s ∈ supported_languages then some s else none
  | none => none

/-- `Enrich.POST` (rest.py lines 64-192): the full request pipeline.
Corrected text, when present, makes `corrected` true and the image block is
skipped entirely; otherwise an uploaded image goes through `imagePhase`.
In corrected mode, detection (with display-name fallback) runs on the
base64-decoded text.  Then the target language is validated (400 when
missing or unsupported), translation is called with the active text and the
normalized declared source, and `get_json` assembles the response. -/
def POST (env : Env) (req : Request) : Except Fault Response × List Event :=
  let corrected := req.text.isSome
  let corrected_text : Option String := req.text.map env.b64decode
  let source_lang := normalize_source req.source
  rbind
    (match req.image with
     | some image =>
       if corrected then (Except.ok ((none : Option String), "unk"), [])
       else
         rbind (imagePhase env image req.filetype source_lang)
           (fun r => (Except.ok (some r.1, r.2), []))
     | none => (Except.ok ((none : Option String), "unk"), []))
    (fun p =>
      rbind
        (if corrected then
           rbind (get_language env (corrected_text.getD "")) (fun d =>
             if d ∈ supported_languages then (Except.ok d, [])
             else get_language_name env d)
         else (Except.ok p.2, []))
        (fun detected_lang =>
          match req.target with
          | none =>
            (Except.error
              (Fault.badRequest "No language to translate into specified."), [])
          | some t0 =>
            let target_lang := lower t0
            if target_lang ∉ supported_languages then
              (Except.error
                (Fault.badRequest "This target language is not supported."), [])
            else
              let active_text : Option String :=
                if corrected then corrected_text else p.1
              rbind (get_translation env active_text target_lang source_lang)
                (fun translation =>
                  (get_json active_text translation detected_lang, []))))

/-- Is an event a storage write attempt? -/
def isStore : Event → Bool
  | Event.store _ => true
  | _ => false

/-- Is an event an extraction pass? -/
def isExtract : Event → Bool
  | Event.extract _ _ => true
  | _ => false

/-- Is an event a detection-service call? -/
def isDetect : Event → Bool
  | Event.detectCall _ => true
  | _ => false

/-- Is an event a translation-service call? -/
def isTranslate : Event → Bool
  | Event.translateCall _ _ _ => true
  | _ => false

/-- Number of extraction passes recorded in a trace. -/
def countExtract (t : List Event) : Nat := (t.filter isExtract).length

/-- Number of detection-service calls recorded in a trace. -/
def countDetect (t : List Event) : Nat := (t.filter isDetect).length

/-- Number of translation-service calls recorded in a trace. -/
def countTranslate (t : List Event) : Nat := (t.filter isTranslate).length

/-- Number of storage write attempts recorded in a trace. -/
def countStore (t : List Event) : Nat := (t.filter isStore).length

/-! Helper lemmas about the pipeline combinators. -/

theorem rbind_of_error {α β : Type} (x : Except Fault α × List Event)
    (f : α → Except Fault β × List Event) (e : Fault) (h : x.1 = Except.error e) :
    rbind x f = (Except.error e, x.2) := by
  rcases x with ⟨x1, t⟩
  cases x1 <;> simp_all [rbind]

theorem rbind_of_ok {α β : Type} (x : Except Fault α × List Event)
    (f : α → Except Fault β × List Event) (a : α) (h : x.1 = Except.ok a) :
    rbind x f = ((f a).1, x.2 ++ (f a).2) := by
  rcases x with ⟨x1, t⟩
  cases x1 <;> simp_all [rbind]

theorem rbind_ok_inv {α β : Type} (x : Except Fault α × List Event)
    (f : α → Except Fault β × List Event) (b : β)
    (h : (rbind x f).1 = Except.ok b) :
    ∃ a, x.1 = Except.ok a ∧ (f a).1 = Except.ok b := by
  rcases x with ⟨x1, t⟩
  cases x1 <;> simp_all [rbind]

theorem countP_append (p : Event → Bool) (a b : List Event) :
    ((a ++ b).filter p).length = (a.filter p).length + (b.filter p).length := by
  simp [List.filter_append]

theorem countP_rbind_zero {α β : Type} (p : Event → Bool)
    (x : Except Fault α × List Event) (f : α → Except Fault β × List Event)
    (hx : (x.2.filter p).length = 0) (hf : ∀ a, ((f a).2.filter p).length = 0) :
    (((rbind x f).2).filter p).length = 0 := by
  rcases x with ⟨x1, t⟩
  cases x1 with
  | error e => simp_all [rbind, List.filter_append]
  | ok a =>
    simp_all [rbind, List.filter_append]
    exact hf a

/-! Evaluation lemmas for the component functions. -/

theorem get_text_snd (env : Env) (p : String) (h : Option String) :
    (get_text env p h).2 = [Event.extract p h] := rfl

theorem get_text_ok (env : Env) (p : String) (h : Option String) (t : String)
    (hp : p.length ≠ 0) (ho : env.openImage p = true)
    (h1 : env.ocr p h = Except.ok t) (ht : t.length ≠ 0) :
    get_text env p h = (Except.ok t, [Event.extract p h]) := by
  simp [get_text, hp, ho, h1, ht]

theorem get_language_ok (env : Env) (t : String) (ht : t.length ≠ 0) :
    get_language env t =
      (Except.ok ((env.detect t).getD "unk"), [Event.detectCall t]) := by
  simp [get_language, ht]

theorem get_language_name_ok (env : Env) (g : String) (hg : g.length ≠ 0) :
    get_language_name env g = (Except.ok (language_name env g), []) := by
  simp [get_language_name, hg]

theorem lower_of_supported (s : String) (hs : s ∈ supported_languages) :
    lower s = s := by
  simp [supported_languages] at hs
  rcases hs with rfl | rfl | rfl <;> rfl

theorem length_of_supported (s : String) (hs : s ∈ supported_languages) :
    s.length ≠ 0 := by
  simp [supported_languages] at hs
  rcases hs with rfl | rfl | rfl <;> decide

theorem tesseract_code_key (g c : String) (h : tesseract_code g = some c) :
    g = "en" ∨ g = "de" ∨ g = "it" ∨ g = "fr" ∨ g = "es" ∨ g = "sv" := by
  cases hb1 : g == "en"
  case true => exact Or.inl (eq_of_beq hb1)
  cases hb2 : g == "de"
  case true => exact Or.inr (Or.inl (eq_of_beq hb2))
  cases hb3 : g == "it"
  case true => exact Or.inr (Or.inr (Or.inl (eq_of_beq hb3)))
  cases hb4 : g == "fr"
  case true => exact Or.inr (Or.inr (Or.inr (Or.inl (eq_of_beq hb4))))
  cases hb5 : g == "es"
  case true => exact Or.inr (Or.inr (Or.inr (Or.inr (Or.inl (eq_of_beq hb5)))))
  cases hb6 : g == "sv"
  case true => exact Or.inr (Or.inr (Or.inr (Or.inr (Or.inr (eq_of_beq hb6)))))
  exfalso
  simp [tesseract_code, supported_languages_tesseract, List.lookup,
        hb1, hb2, hb3, hb4, hb5, hb6] at h

theorem tesseract_key_length (g c : String) (h : tesseract_code g = some c) :
    g.length ≠ 0 := by
  rcases tesseract_code_key g c h with rfl | rfl | rfl | rfl | rfl | rfl <;> decide

theorem language_name_length (env : Env) (g : String) :
    (language_name env g).length ≠ 0 := by
  unfold language_name
  cases h : env.gs_languages g with
  | none => decide
  | some name =>
    simp only [String.length_append]
    have h9 : "detected:".length = 9 := rfl
    omega

theorem filter_zero_get_text (p : Event → Bool) (env : Env) (path : String)
    (h : Option String) (hp : p (Event.extract path h) = false) :
    ((get_text env path h).2.filter p).length = 0 := by
  simp [get_text, hp]

theorem filter_zero_get_language (p : Event → Bool) (env : Env) (t : String)
    (hp : p (Event.detectCall t) = false) :
    ((get_language env t).2.filter p).length = 0 := by
  unfold get_language
  split <;> simp [hp]

theorem filter_zero_get_language_name (p : Event → Bool) (env : Env) (g : String) :
    ((get_language_name env g).2.filter p).length = 0 := by
  unfold get_language_name
  split <;> rfl

theorem filter_zero_get_translation (p : Event → Bool) (env : Env)
    (txt : Option String) (tgt : String) (src : Option String)
    (hp : ∀ t, p (Event.translateCall t tgt src) = false) :
    ((get_translation env txt tgt src).2.filter p).length = 0 := by
  rcases txt with _ | t
  · rfl
  · simp only [get_translation]
    split
    · rfl
    · split
      · rfl
      · simp [hp]

theorem filter_zero_finallyBlock (p : Event → Bool) (env : Env) (path : String)
    (src : Option String)
    (hx : ∀ h, p (Event.extract path h) = false)
    (hd : ∀ t, p (Event.detectCall t) = false) :
    ((finallyBlock env path src).2.filter p).length = 0 := by
  unfold finallyBlock
  apply countP_rbind_zero
  · rcases src with _ | s0
    · exact filter_zero_get_text p env path none (hx none)
    · dsimp only
      cases htc : tesseract_code s0 with
      | none => rfl
      | some c => exact filter_zero_get_text p env path (some c) (hx (some c))
  · intro t1
    apply countP_rbind_zero
    · exact filter_zero_get_language p env t1 (hd t1)
    · intro d
      apply countP_rbind_zero
      · rcases src with _ | s0
        · cases htc : tesseract_code d with
          | none => rfl
          | some c => exact filter_zero_get_text p env path (some c) (hx (some c))
        · rfl
      · intro t2
        apply countP_rbind_zero
        · split
          · rfl
          · exact filter_zero_get_language_name p env d
        · intro d1
          rfl

theorem filter_zero_imagePhase (p : Event → Bool) (env : Env) (img : ImagePart)
    (ft : Option String) (src : Option String)
    (hs : ∀ q, p (Event.store q) = false)
    (hx : ∀ q h, p (Event.extract q h) = false)
    (hd : ∀ t, p (Event.detectCall t) = false) :
    ((imagePhase env img ft src).2.filter p).length = 0 := by
  unfold imagePhase
  split
  · rfl
  · split
    · rfl
    · rcases ft with _ | f
      · rfl
      · dsimp only
        split
        · rfl
        · have hfin := filter_zero_finallyBlock p env
            ("uploads" ++ "/" ++ (env.image_id ++ "." ++ lower f)) src
            (fun h => hx _ h) hd
          simp only [List.filter_cons, hs]
          simpa using hfin

theorem no_translate_imagePhase (env : Env) (img : ImagePart)
    (ft : Option String) (src : Option String) :
    ((imagePhase env img ft src).2.filter isTranslate).length = 0 :=
  filter_zero_imagePhase isTranslate env img ft src
    (fun _ => rfl) (fun _ _ => rfl) (fun _ => rfl)

theorem upload_path_length (s : String) :
    ("uploads" ++ "/" ++ s).length ≠ 0 := by
  simp only [String.length_append]
  have h7 : "uploads".length = 7 := rfl
  have h1 : "/".length = 1 := rfl
  omega

theorem imagePhase_eval (env : Env) (img : ImagePart) (ft : String)
    (src : Option String) (hv : img.value.length ≠ 0)
    (hf : img.filename.length ≠ 0) (hft : lower ft ∈ supported_filetypes) :
    imagePhase env img (some ft) src =
      (match (finallyBlock env
          ("uploads" ++ "/" ++ (env.image_id ++ "." ++ lower ft)) src).1 with
       | Except.error e => Except.error e
       | Except.ok r =>
         if env.storeOk then Except.ok r
         else Except.error (Fault.internalError "Server: Could not store image."),
       Event.store ("uploads" ++ "/" ++ (env.image_id ++ "." ++ lower ft)) ::
         (finallyBlock env
           ("uploads" ++ "/" ++ (env.image_id ++ "." ++ lower ft)) src).2) := by
  simp [imagePhase, hv, hf, hft]

/-- The final detected-language value of the image pipeline: the raw guess
when it is in the supported translation set, else its display name
(rest.py lines 158-159). -/
def detectedDisplay (env : Env) (g : String) : String :=
  if g ∈ supported_languages then g else language_name env g

theorem detectedDisplay_length (env : Env) (g : String) (hg : g.length ≠ 0) :
    (detectedDisplay env g).length ≠ 0 := by
  unfold detectedDisplay
  split
  · exact hg
  · exact language_name_length env g

theorem get_language_name_snd (env : Env) (g : String) :
    (get_language_name env g).2 = ([] : List Event) := by
  unfold get_language_name
  split <;> rfl

theorem fallback_pair (env : Env) (g : String) :
    ∃ rf : Except Fault String,
      (if g ∈ supported_languages then (Except.ok g, ([] : List Event))
       else get_language_name env g) = (rf, ([] : List Event)) := by
  by_cases hmem : g ∈ supported_languages
  · exact ⟨Except.ok g, by simp [hmem]⟩
  · rcases hgn : get_language_name env g with ⟨rn, tn⟩
    have hfb := get_language_name_snd env g
    rw [hgn] at hfb
    simp only at hfb
    subst hfb
    exact ⟨rn, by simp [hmem, hgn]⟩

theorem finallyBlock_snd_none (env : Env) (path t1 : String)
    (hp : path.length ≠ 0) (ho : env.openImage path = true)
    (h1 : env.ocr path none = Except.ok t1) (ht1 : t1.length ≠ 0) :
    (finallyBlock env path none).2 =
      Event.extract path none :: Event.detectCall t1 ::
        (match tesseract_code ((env.detect t1).getD "unk") with
         | some c => [Event.extract path (some c)]
         | none => []) := by
  unfold finallyBlock
  dsimp only
  rw [get_text_ok env path none t1 hp ho h1 ht1]
  simp only [rbind, get_language_ok env t1 ht1]
  obtain ⟨rf, hrf⟩ := fallback_pair env ((env.detect t1).getD "unk")
  cases htc : tesseract_code ((env.detect t1).getD "unk") with
  | none =>
    simp only [rbind]
    rw [hrf]
    cases rf <;> simp
  | some c =>
    have hsnd := get_text_snd env path (some c)
    rcases hgt : get_text env path (some c) with ⟨r2, tr2⟩
    rw [hgt] at hsnd
    simp only at hsnd
    subst hsnd
    simp only [rbind]
    rw [hgt, hrf]
    cases r2 <;> cases rf <;> simp [rbind]

theorem finallyBlock_snd_some (env : Env) (path s0 c0 t1 : String)
    (hc0 : tesseract_code s0 = some c0)
    (hp : path.length ≠ 0) (ho : env.openImage path = true)
    (h1 : env.ocr path (some c0) = Except.ok t1) (ht1 : t1.length ≠ 0) :
    (finallyBlock env path (some s0)).2 =
      [Event.extract path (some c0), Event.detectCall t1] := by
  unfold finallyBlock
  dsimp only
  rw [hc0]
  dsimp only
  rw [get_text_ok env path (some c0) t1 hp ho h1 ht1]
  obtain ⟨rf, hrf⟩ := fallback_pair env ((env.detect t1).getD "unk")
  simp only [rbind, get_language_ok env t1 ht1]
  rw [hrf]
  cases rf <;> simp

theorem finallyBlock_eval_retry (env : Env) (path t1 c t2 : String)
    (hp : path.length ≠ 0) (ho : env.openImage path = true)
    (h1 : env.ocr path none = Except.ok t1) (ht1 : t1.length ≠ 0)
    (hg : tesseract_code ((env.detect t1).getD "unk") = some c)
    (h2 : env.ocr path (some c) = Except.ok t2) (ht2 : t2.length ≠ 0) :
    finallyBlock env path none =
      (Except.ok (t2, detectedDisplay env ((env.detect t1).getD "unk")),
       [Event.extract path none, Event.detectCall t1,
        Event.extract path (some c)]) := by
  unfold finallyBlock
  dsimp only
  rw [get_text_ok env path none t1 hp ho h1 ht1]
  simp only [rbind, get_language_ok env t1 ht1, hg]
  rw [get_text_ok env path (some c) t2 hp ho h2 ht2]
  unfold detectedDisplay
  by_cases hmem : ((env.detect t1).getD "unk") ∈ supported_languages
  · simp [hmem]
  · simp [hmem, get_language_name_ok env _ (tesseract_key_length _ c hg)]

/-- C2: for an image-mode pipeline run whose first extraction pass succeeds,
a second extraction pass runs if and only if no validated source language
was declared and the detected guess is a key of the OCR-capable table
`{en,de,it,fr,es,sv}`; when it runs, its text replaces the first pass's
text in the pipeline result; and there are never more than two extraction
passes. -/
theorem c2_retry_pass_iff (env : Env) (path : String) (src : Option String)
    (t1 : String)
    (hval : ∀ s, src = some s → s ∈ supported_languages)
    (hp : path.length ≠ 0) (ho : env.openImage path = true)
    (h1 : env.ocr path (src.bind tesseract_code) = Except.ok t1)
    (ht1 : t1.length ≠ 0) :
    countExtract (finallyBlock env path src).2 =
      (if src = none ∧ (tesseract_code ((env.detect t1).getD "unk")).isSome
       then 2 else 1) ∧
    (∀ c t2, src = none →
      tesseract_code ((env.detect t1).getD "unk") = some c →
      env.ocr path (some c) = Except.ok t2 → t2.length ≠ 0 →
      (finallyBlock env path src).1 =
        Except.ok (t2, detectedDisplay env ((env.detect t1).getD "unk"))) := by
  rcases src with _ | s0
  · have h1' : env.ocr path none = Except.ok t1 := h1
    constructor
    · rw [finallyBlock_snd_none env path t1 hp ho h1' ht1]
      cases htc : tesseract_code ((env.detect t1).getD "unk") <;>
        simp [countExtract, isExtract]
    · intro c t2 _ htc h2 ht2
      have h := finallyBlock_eval_retry env path t1 c t2 hp ho h1' ht1 htc h2 ht2
      rw [h]
  · constructor
    · have hs0 : s0 ∈ supported_languages := hval s0 rfl
      obtain ⟨c0, hc0⟩ : ∃ c0, tesseract_code s0 = some c0 := by
        simp [supported_languages] at hs0
        rcases hs0 with rfl | rfl | rfl <;> exact ⟨_, rfl⟩
      have h1' : env.ocr path (some c0) = Except.ok t1 := by
        rw [Option.some_bind, hc0] at h1
        exact h1
      rw [finallyBlock_snd_some env path s0 c0 t1 hc0 hp ho h1' ht1]
      simp [countExtract, isExtract]
    · intro c t2 hnone
      simp at hnone

/-- Witness for C2 at a concrete environment: the detector guesses `fr`
(OCR-capable, not translation-supported), no source is declared, so the
retry fires, there are two extraction passes, and the second pass's text
is kept with the display-name form of the guess. -/
def envC2 : Env :=
  { b64decode := id, image_id := "x", storeOk := true,
    openImage := fun _ => true,
    ocr := fun _ hint => match hint with
      | none => Except.ok "erster"
      | some _ => Except.ok "zweiter",
    detect := fun _ => some "fr",
    translate := fun _ _ _ => Except.ok "uebersetzt",
    gs_languages := fun l => if l = "fr" then some "French" else none }

theorem c2_witness :
    countExtract (finallyBlock envC2 "p" none).2 = 2 ∧
    (finallyBlock envC2 "p" none).1 =
      Except.ok ("zweiter", "detected:French") := by
  have h := c2_retry_pass_iff envC2 "p" none "erster"
    (fun s hs => by simp at hs) (by decide) rfl rfl (by decide)
  refine ⟨?_, ?_⟩
  · have := h.1
    simpa using this
  · have := h.2 "fra" "zweiter" rfl rfl rfl (by decide)
    simpa using this

theorem rbind_prefix {α β : Type} (x : Except Fault α × List Event)
    (f : α → Except Fault β × List Event) :
    ∃ rest, (rbind x f).2 = x.2 ++ rest := by
  rcases x with ⟨x1, t⟩
  cases x1
  · exact ⟨[], by simp [rbind]⟩
  · exact ⟨_, rfl⟩

theorem filter_zero_POST_corrected (p : Event → Bool) (env : Env)
    (s : String) (src tg : Option String) (im : Option ImagePart)
    (ft : Option String)
    (hd : ∀ x, p (Event.detectCall x) = false)
    (htr : ∀ x y z, p (Event.translateCall x y z) = false) :
    (((POST env ⟨some s, src, tg, im, ft⟩).2).filter p).length = 0 := by
  unfold POST
  dsimp only
  apply countP_rbind_zero
  · rcases im with _ | img <;> rfl
  · intro pr
    apply countP_rbind_zero
    · apply countP_rbind_zero
      · exact filter_zero_get_language p env _ (hd _)
      · intro d
        split
        · rfl
        · exact filter_zero_get_language_name p env d
    · intro dl
      rcases tg with _ | t0
      · rfl
      · dsimp only
        split
        · rfl
        · apply countP_rbind_zero
          · exact filter_zero_get_translation p env _ _ _ (fun x => htr x _ _)
          · intro tr
            rfl

/-- C6: in `get_text`, an OCR engine call that returns an empty string
fails with the not-found class (`web.notfound`, HTTP 404), while an OCR
engine call that raises fails with the server-fault class
(`web.internalerror`, HTTP 500). -/
theorem c6_empty_text_notfound (env : Env) (path : String) (hint : Option String)
    (hp : path.length ≠ 0) (ho : env.openImage path = true) :
    (env.ocr path hint = Except.ok "" →
      (get_text env path hint).1 =
        Except.error (Fault.notFound "No text detected in image.")) ∧
    (∀ u, env.ocr path hint = Except.error u →
      (get_text env path hint).1 =
        Except.error (Fault.internalError "Could not extract text from image.")) := by
  constructor
  · intro h
    simp [get_text, hp, ho, h]
  · intro u h
    simp [get_text, hp, ho, h]

/-- Environment for the C6 witness: the OCR engine returns an empty string. -/
def envC6 : Env :=
  { b64decode := id, image_id := "x", storeOk := true,
    openImage := fun _ => true,
    ocr := fun _ _ => Except.ok "",
    detect := fun _ => none,
    translate := fun _ _ _ => Except.ok "t",
    gs_languages := fun _ => none }

theorem c6_witness :
    (get_text envC6 "p" none).1 =
      Except.error (Fault.notFound "No text detected in image.") :=
  (c6_empty_text_notfound envC6 "p" none (by decide) rfl).1 rfl

/-- C7: an image-mode request (no corrected text) whose image payload is
empty is rejected with a 400 bad request, and the trace is empty: in
particular no storage write is attempted. -/
theorem c7_empty_image_rejected_before_store (env : Env) (req : Request)
    (img : ImagePart) (htext : req.text = none) (himg : req.image = some img)
    (hval : img.value = "") :
    (POST env req).1 =
      Except.error (Fault.badRequest "No image to process. No value.") ∧
    (POST env req).2 = [] := by
  rcases req with ⟨t, src, tg, im, ft⟩
  rcases img with ⟨v, fname⟩
  simp only at htext himg hval
  subst htext
  subst himg
  subst hval
  constructor <;> rfl

/-- Request for the C7 witness: a zero-byte image upload. -/
def reqC7 : Request :=
  { text := none, source := none, target := some "en",
    image := some { value := "", filename := "a.jpg" }, filetype := some "jpg" }

theorem c7_witness :
    (POST envC2 reqC7).1 =
      Except.error (Fault.badRequest "No image to process. No value.") ∧
    (POST envC2 reqC7).2 = [] :=
  c7_empty_image_rejected_before_store envC2 reqC7
    { value := "", filename := "a.jpg" } rfl rfl rfl

/-- C8: a declared source language whose lower-cased form is not in the
supported set `{en,de,it}` is silently treated as absent: the whole request
behaves exactly (same result, same trace of external calls) as the same
request with no `source` field, so it is not rejected for the bad source,
no OCR hint is derived from it, and it is never passed to the translator. -/
theorem c8_invalid_source_ignored (env : Env) (req : Request) (s : String)
    (hs : req.source = some s) (hbad : lower s ∉ supported_languages) :
    POST env req = POST env { req with source := none } := by
  rcases req with ⟨t, src, tg, im, ft⟩
  simp only at hs
  subst hs
  have hnorm : normalize_source (some s) = none := by
    simp [normalize_source, hbad]
  show POST env ⟨t, some s, tg, im, ft⟩ = POST env ⟨t, none, tg, im, ft⟩
  unfold POST
  dsimp only
  rw [hnorm]
  rw [show normalize_source none = none from rfl]

theorem POST_corrected_eval (env : Env) (s : String) (src tg : Option String)
    (im : Option ImagePart) (ft : Option String) :
    POST env ⟨some s, src, tg, im, ft⟩ =
      rbind
        (rbind (get_language env (env.b64decode s)) (fun d =>
          if d ∈ supported_languages then (Except.ok d, ([] : List Event))
          else get_language_name env d))
        (fun detected_lang =>
          match tg with
          | none =>
            (Except.error
              (Fault.badRequest "No language to translate into specified."), [])
          | some t0 =>
            if lower t0 ∉ supported_languages then
              (Except.error
                (Fault.badRequest "This target language is not supported."), [])
            else
              rbind (get_translation env (some (env.b64decode s)) (lower t0)
                       (normalize_source src))
                (fun translation =>
                  (get_json (some (env.b64decode s)) translation detected_lang,
                   []))) := by
  cases im <;> rfl

/-- C5: for a request whose corrected-text field is present, the uploaded
image and the declared filetype are ignored entirely: the run (result and
trace) equals that of the same request with no image and no filetype, no
storage write and no extraction pass occur, and when the decoded corrected
text is non-empty the very first external call is the detection of that
decoded text. -/
theorem c5_corrected_ignores_image (env : Env) (req : Request) (s : String)
    (hs : req.text = some s) :
    POST env req = POST env { req with image := none, filetype := none } ∧
    countStore (POST env req).2 = 0 ∧
    countExtract (POST env req).2 = 0 ∧
    ((env.b64decode s).length ≠ 0 →
      ∃ rest, (POST env req).2 = Event.detectCall (env.b64decode s) :: rest) := by
  rcases req with ⟨t, src, tg, im, ft⟩
  simp only at hs
  subst hs
  refine ⟨?_, ?_, ?_, ?_⟩
  · cases im <;> rfl
  · exact filter_zero_POST_corrected isStore env s src tg im ft
      (fun _ => rfl) (fun _ _ _ => rfl)
  · exact filter_zero_POST_corrected isExtract env s src tg im ft
      (fun _ => rfl) (fun _ _ _ => rfl)
  · intro hdec
    rw [POST_corrected_eval]
    rw [get_language_ok env (env.b64decode s) hdec]
    rw [rbind_of_ok (Except.ok ((env.detect (env.b64decode s)).getD "unk"),
          [Event.detectCall (env.b64decode s)]) _
          ((env.detect (env.b64decode s)).getD "unk") rfl]
    obtain ⟨rf, hrf⟩ :=
      fallback_pair env ((env.detect (env.b64decode s)).getD "unk")
    rw [hrf]
    cases rf
    · exact ⟨[], by simp [rbind]⟩
    · rcases tg with _ | t0
      · exact ⟨[], by simp [rbind]⟩
      · by_cases htg : lower t0 ∈ supported_languages
        · rcases hgt : get_translation env (some (env.b64decode s)) (lower t0)
            (normalize_source src) with ⟨rt, tt⟩
          refine ⟨tt, ?_⟩
          simp only [rbind, hgt]
          cases rt <;> simp [htg]
        · exact ⟨[], by simp [rbind, htg]⟩

/-- Request for the C5 witness: both corrected text and an image present. -/
def reqC5 : Request :=
  { text := some "aGFsbG8=", source := none, target := some "en",
    image := some { value := "bytes", filename := "a.jpg" },
    filetype := some "jpg" }

theorem c5_witness :
    POST envC2 reqC5 = POST envC2 { reqC5 with image := none, filetype := none } ∧
    countStore (POST envC2 reqC5).2 = 0 ∧
    countExtract (POST envC2 reqC5).2 = 0 ∧
    ((envC2.b64decode "aGFsbG8=").length ≠ 0 →
      ∃ rest, (POST envC2 reqC5).2 =
        Event.detectCall (envC2.b64decode "aGFsbG8=") :: rest) :=
  c5_corrected_ignores_image envC2 reqC5 "aGFsbG8=" rfl

/-- Request for the C8 witness: declared source `xx` (unsupported). -/
def reqC8 : Request :=
  { text := some "aGFsbG8=", source := some "xx", target := some "en",
    image := none, filetype := none }

theorem c8_witness :
    POST envC2 reqC8 = POST envC2 { reqC8 with source := none } :=
  c8_invalid_source_ignored envC2 reqC8 "xx" rfl (by decide)

theorem fallback_eval (env : Env) (g : String) (hg : g.length ≠ 0) :
    (if g ∈ supported_languages then (Except.ok g, ([] : List Event))
     else get_language_name env g) =
      (Except.ok (detectedDisplay env g), []) := by
  unfold detectedDisplay
  by_cases hmem : g ∈ supported_languages
  · simp [hmem]
  · simp [hmem, get_language_name_ok env g hg]

theorem get_translation_ok (env : Env) (txt tgt : String) (src : Option String)
    (tr : String) (htxt : txt.length ≠ 0) (htgt : tgt.length ≠ 0)
    (h : env.translate txt tgt src = Except.ok tr) :
    get_translation env (some txt) tgt src =
      (Except.ok tr, [Event.translateCall txt tgt src]) := by
  simp [get_translation, htxt, htgt, h]

theorem get_json_ok (t tr d : String) (ht : t.length ≠ 0)
    (htr : tr.length ≠ 0) (hd : d.length ≠ 0) :
    get_json (some t) tr d =
      Except.ok { detected := d, text := t, translation := tr } := by
  simp [get_json, ht, htr, hd]

/-- Environment for the C1 counterexample: the corrected text decodes to
German, the detector guesses `de`, the translator succeeds. -/
def envC1 : Env :=
  { b64decode := fun _ => "Hallo Welt", image_id := "x", storeOk := true,
    openImage := fun _ => true,
    ocr := fun _ _ => Except.ok "ocr",
    detect := fun _ => some "de",
    translate := fun _ _ _ => Except.ok "Hello World",
    gs_languages := fun _ => none }

/-- Request for the C1 counterexample: corrected text with declared source
`en` and target `de` (both in the supported set). -/
def reqC1 : Request :=
  { text := some "SGFsbG8gV2VsdA==", source := some "en", target := some "de",
    image := none, filetype := none }

/-- C1 counterexample: a corrected-text request with declared source `en`
and target `de` on which the whole pipeline succeeds, the translator is
called with source `en`, and yet the response's `detected` field is the
detector's guess `de`, not the declared source `en` — refuting the claim
that the `detected` field equals the declared source. -/
theorem c1_counterexample :
    (POST envC1 reqC1).1 =
      Except.ok { detected := "de", text := "Hallo Welt",
                  translation := "Hello World" } ∧
    Event.translateCall "Hallo Welt" "de" (some "en") ∈ (POST envC1 reqC1).2 ∧
    ("de" : String) ≠ "en" := by
  refine ⟨rfl, ?_, by decide⟩
  show Event.translateCall "Hallo Welt" "de" (some "en") ∈
    [Event.detectCall "Hallo Welt", Event.translateCall "Hallo Welt" "de" (some "en")]
  simp

/-- C1 (amended): for every corrected-text request with a declared source
`s` in `{en,de,it}` and target `t` in `{en,de,it}`, the translator is
called with source `s` (never a heuristically detected language), and the
success response's `detected` field is the detector's guess on the decoded
corrected text (with the display-name fallback applied when the guess is
outside the supported set) — not necessarily `s`. -/
theorem c1_amended_translator_source_declared (env : Env) (enc s t0 tr : String)
    (im : Option ImagePart) (ft : Option String)
    (hs : s ∈ supported_languages) (ht : lower t0 ∈ supported_languages)
    (hdec : (env.b64decode enc).length ≠ 0)
    (hg : ((env.detect (env.b64decode enc)).getD "unk").length ≠ 0)
    (htr : env.translate (env.b64decode enc) (lower t0) (some s) = Except.ok tr)
    (htrlen : tr.length ≠ 0) :
    (POST env ⟨some enc, some s, some t0, im, ft⟩).1 =
      Except.ok { detected :=
                    detectedDisplay env ((env.detect (env.b64decode enc)).getD "unk"),
                  text := env.b64decode enc, translation := tr } ∧
    Event.translateCall (env.b64decode enc) (lower t0) (some s) ∈
      (POST env ⟨some enc, some s, some t0, im, ft⟩).2 := by
  have hns : normalize_source (some s) = some s := by
    simp [normalize_source, lower_of_supported s hs, hs]
  have hjson := get_json_ok (env.b64decode enc) tr
    (detectedDisplay env ((env.detect (env.b64decode enc)).getD "unk"))
    hdec htrlen (detectedDisplay_length env _ hg)
  rw [POST_corrected_eval]
  dsimp only
  rw [get_language_ok env (env.b64decode enc) hdec]
  rw [rbind_of_ok (Except.ok ((env.detect (env.b64decode enc)).getD "unk"),
        [Event.detectCall (env.b64decode enc)]) _
        ((env.detect (env.b64decode enc)).getD "unk") rfl]
  dsimp only
  rw [fallback_eval env _ hg]
  rw [hns]
  rw [get_translation_ok env (env.b64decode enc) (lower t0) (some s) tr hdec
    (length_of_supported _ ht) htr]
  constructor
  · simp [rbind, ht, hjson]
  · simp [rbind, ht]

/-- Witness for the C1 amended theorem at a concrete input. -/
theorem c1_amended_witness :
    (POST envC1 reqC1).1 =
      Except.ok { detected := detectedDisplay envC1
                    ((envC1.detect (envC1.b64decode "SGFsbG8gV2VsdA==")).getD "unk"),
                  text := envC1.b64decode "SGFsbG8gV2VsdA==",
                  translation := "Hello World" } ∧
    Event.translateCall (envC1.b64decode "SGFsbG8gV2VsdA==") (lower "de")
        (some "en") ∈
      (POST envC1 reqC1).2 :=
  c1_amended_translator_source_declared envC1 "SGFsbG8gV2VsdA==" "en" "de"
    "Hello World" none none (by decide) (by decide) (by decide) (by decide)
    rfl (by decide)

theorem POST_image_mode (env : Env) (src tg ftf : Option String)
    (img : ImagePart) :
    POST env ⟨none, src, tg, some img, ftf⟩ =
      rbind (rbind (imagePhase env img ftf (normalize_source src))
               (fun r => (Except.ok ((some r.1 : Option String), r.2),
                          ([] : List Event))))
        (fun p =>
          match tg with
          | none =>
            (Except.error
              (Fault.badRequest "No language to translate into specified."), [])
          | some t0 =>
            if lower t0 ∉ supported_languages then
              (Except.error
                (Fault.badRequest "This target language is not supported."), [])
            else
              rbind (get_translation env p.1 (lower t0) (normalize_source src))
                (fun translation => (get_json p.1 translation p.2, []))) := rfl

/-- Environment for the C3 counterexample: OCR returns distinct text in
the hintless first pass and the hinted second pass, the detector guesses
`en`, the translator succeeds. -/
def envC3 : Env :=
  { b64decode := id, image_id := "id", storeOk := true,
    openImage := fun _ => true,
    ocr := fun _ hint => match hint with
      | none => Except.ok "first text"
      | some _ => Except.ok "second text",
    detect := fun _ => some "en",
    translate := fun _ _ _ => Except.ok "uebersetzung",
    gs_languages := fun _ => none }

/-- Request for the C3 counterexample: image mode, filetype jpg, target de,
no declared source. -/
def reqC3 : Request :=
  { text := none, source := none, target := some "de",
    image := some { value := "bytes", filename := "a.jpg" },
    filetype := some "jpg" }

/-- C3 counterexample: under exactly the scenario of the claim (valid jpg,
target `de`, no source, first pass succeeds, detector guesses `en`) a retry
extraction pass DOES fire — the trace contains two extraction passes, the
second hinted with `eng` — and the success response carries the second
pass's text, refuting the claim that no retry fires. -/
theorem c3_counterexample :
    countExtract (POST envC3 reqC3).2 = 2 ∧
    Event.extract ("uploads" ++ "/" ++ ("id" ++ "." ++ "jpg")) (some "eng") ∈
      (POST envC3 reqC3).2 ∧
    (POST envC3 reqC3).1 =
      Except.ok { detected := "en", text := "second text",
                  translation := "uebersetzung" } := by
  refine ⟨rfl, ?_, rfl⟩
  decide

/-- C3 (amended): for an image-mode request with filetype jpg, target de
and no declared source, where the hintless first extraction succeeds and
the detector guesses `en`: since `en` is a key of the OCR-capable table, a
retry extraction pass fires with hint `eng` (two extraction passes in
total), its text replaces the first pass's, the translator is called with
the source omitted and target `de` on that second text, and the response's
`detected` field is `en`. -/
theorem c3_amended_retry_fires (env : Env) (v fn t1 t2 tr : String)
    (hv : v.length ≠ 0) (hf : fn.length ≠ 0) (hstore : env.storeOk = true)
    (ho : env.openImage ("uploads" ++ "/" ++ (env.image_id ++ "." ++ "jpg")) = true)
    (h1 : env.ocr ("uploads" ++ "/" ++ (env.image_id ++ "." ++ "jpg")) none =
      Except.ok t1)
    (ht1 : t1.length ≠ 0)
    (hdet : env.detect t1 = some "en")
    (h2 : env.ocr ("uploads" ++ "/" ++ (env.image_id ++ "." ++ "jpg"))
        (some "eng") = Except.ok t2)
    (ht2 : t2.length ≠ 0)
    (htr : env.translate t2 "de" none = Except.ok tr) (htrlen : tr.length ≠ 0) :
    countExtract (POST env ⟨none, none, some "de",
        some ⟨v, fn⟩, some "jpg"⟩).2 = 2 ∧
    Event.extract ("uploads" ++ "/" ++ (env.image_id ++ "." ++ "jpg"))
        (some "eng") ∈
      (POST env ⟨none, none, some "de", some ⟨v, fn⟩, some "jpg"⟩).2 ∧
    Event.translateCall t2 "de" none ∈
      (POST env ⟨none, none, some "de", some ⟨v, fn⟩, some "jpg"⟩).2 ∧
    (POST env ⟨none, none, some "de", some ⟨v, fn⟩, some "jpg"⟩).1 =
      Except.ok { detected := "en", text := t2, translation := tr } := by
  have hlj : lower "jpg" = "jpg" := rfl
  have hld : lower "de" = "de" := rfl
  have hnn : normalize_source none = none := rfl
  have hg : (env.detect t1).getD "unk" = "en" := by rw [hdet]; rfl
  have hgt : tesseract_code ((env.detect t1).getD "unk") = some "eng" := by
    rw [hg]; rfl
  have hfin := finallyBlock_eval_retry env
    ("uploads" ++ "/" ++ (env.image_id ++ "." ++ "jpg")) t1 "eng" t2
    (upload_path_length _) ho h1 ht1 hgt h2 ht2
  have hdd : detectedDisplay env ((env.detect t1).getD "unk") = "en" := by
    rw [hg]; rfl
  rw [hdd] at hfin
  have hjson := get_json_ok t2 tr "en" ht2 htrlen (by decide)
  rw [POST_image_mode]
  rw [hnn]
  rw [imagePhase_eval env ⟨v, fn⟩ "jpg" none hv hf (by decide)]
  rw [hlj]
  rw [hfin]
  have htrok := get_translation_ok env t2 "de" none tr ht2 (by decide) htr
  refine ⟨?_, ?_, ?_, ?_⟩
  · simp [rbind, hstore, hld, countExtract, isExtract, htrok, supported_languages]
  · simp [rbind, hstore, hld, htrok, supported_languages]
  · simp [rbind, hstore, hld, htrok, supported_languages]
  · simp [rbind, hstore, hld, htrok, hjson, supported_languages]

/-- Witness for the C3 amended theorem at the concrete counterexample
environment. -/
theorem c3_amended_witness :
    countExtract (POST envC3 ⟨none, none, some "de",
        some ⟨"bytes", "a.jpg"⟩, some "jpg"⟩).2 = 2 ∧
    Event.extract ("uploads" ++ "/" ++ (envC3.image_id ++ "." ++ "jpg"))
        (some "eng") ∈
      (POST envC3 ⟨none, none, some "de",
        some ⟨"bytes", "a.jpg"⟩, some "jpg"⟩).2 ∧
    Event.translateCall "second text" "de" none ∈
      (POST envC3 ⟨none, none, some "de",
        some ⟨"bytes", "a.jpg"⟩, some "jpg"⟩).2 ∧
    (POST envC3 ⟨none, none, some "de",
        some ⟨"bytes", "a.jpg"⟩, some "jpg"⟩).1 =
      Except.ok { detected := "en", text := "second text",
                  translation := "uebersetzung" } :=
  c3_amended_retry_fires envC3 "bytes" "a.jpg" "first text" "second text"
    "uebersetzung" (by decide) (by decide) rfl rfl rfl (by decide) rfl rfl
    (by decide) rfl (by decide)

theorem finallyBlock_eval_noretry (env : Env) (path t1 : String)
    (hp : path.length ≠ 0) (ho : env.openImage path = true)
    (h1 : env.ocr path none = Except.ok t1) (ht1 : t1.length ≠ 0)
    (hgt : tesseract_code ((env.detect t1).getD "unk") = none)
    (hglen : ((env.detect t1).getD "unk").length ≠ 0) :
    finallyBlock env path none =
      (Except.ok (t1, detectedDisplay env ((env.detect t1).getD "unk")),
       [Event.extract path none, Event.detectCall t1]) := by
  unfold finallyBlock
  dsimp only
  rw [get_text_ok env path none t1 hp ho h1 ht1]
  simp only [rbind, get_language_ok env t1 ht1, hgt]
  unfold detectedDisplay
  by_cases hmem : ((env.detect t1).getD "unk") ∈ supported_languages
  · simp [hmem]
  · simp [hmem, get_language_name_ok env _ hglen]

/-- C9: in an image-mode run where the retry pass fires, language detection
is not re-run: the trace contains exactly one detection call and it is on
the first pass's text, while the response's `detected` field is the
(display-name adjusted) guess on that first text even though the response
text and the translation input are the second pass's text. -/
theorem c9_detection_not_rerun (env : Env) (v fn ft t0 t1 c t2 tr : String)
    (src : Option String)
    (hv : v.length ≠ 0) (hf : fn.length ≠ 0)
    (hft : lower ft ∈ supported_filetypes)
    (hsrc : normalize_source src = none)
    (hstore : env.storeOk = true)
    (ho : env.openImage
      ("uploads" ++ "/" ++ (env.image_id ++ "." ++ lower ft)) = true)
    (h1 : env.ocr ("uploads" ++ "/" ++ (env.image_id ++ "." ++ lower ft)) none =
      Except.ok t1)
    (ht1 : t1.length ≠ 0)
    (hgt : tesseract_code ((env.detect t1).getD "unk") = some c)
    (h2 : env.ocr ("uploads" ++ "/" ++ (env.image_id ++ "." ++ lower ft))
      (some c) = Except.ok t2)
    (ht2 : t2.length ≠ 0)
    (htgt : lower t0 ∈ supported_languages)
    (htr : env.translate t2 (lower t0) none = Except.ok tr)
    (htrlen : tr.length ≠ 0) :
    countDetect (POST env ⟨none, src, some t0, some ⟨v, fn⟩, some ft⟩).2 = 1 ∧
    Event.detectCall t1 ∈
      (POST env ⟨none, src, some t0, some ⟨v, fn⟩, some ft⟩).2 ∧
    Event.translateCall t2 (lower t0) none ∈
      (POST env ⟨none, src, some t0, some ⟨v, fn⟩, some ft⟩).2 ∧
    (POST env ⟨none, src, some t0, some ⟨v, fn⟩, some ft⟩).1 =
      Except.ok { detected := detectedDisplay env ((env.detect t1).getD "unk"),
                  text := t2, translation := tr } := by
  have hglen : ((env.detect t1).getD "unk").length ≠ 0 :=
    tesseract_key_length _ c hgt
  have hfin := finallyBlock_eval_retry env
    ("uploads" ++ "/" ++ (env.image_id ++ "." ++ lower ft)) t1 c t2
    (upload_path_length _) ho h1 ht1 hgt h2 ht2
  have htrok := get_translation_ok env t2 (lower t0) none tr ht2
    (length_of_supported _ htgt) htr
  have hjson := get_json_ok t2 tr
    (detectedDisplay env ((env.detect t1).getD "unk")) ht2 htrlen
    (detectedDisplay_length env _ hglen)
  rw [POST_image_mode]
  rw [hsrc]
  rw [imagePhase_eval env ⟨v, fn⟩ ft none hv hf hft]
  rw [hfin]
  refine ⟨?_, ?_, ?_, ?_⟩
  · simp [rbind, hstore, htgt, htrok, countDetect, isDetect]
  · simp [rbind, hstore, htgt, htrok]
  · simp [rbind, hstore, htgt, htrok]
  · simp [rbind, hstore, htgt, htrok, hjson]

/-- Environment for the C9 witness: the detector guesses `fr` on the first
pass's text; the retry re-reads the image with the `fra` hint. -/
def envC9 : Env :=
  { b64decode := id, image_id := "u", storeOk := true,
    openImage := fun _ => true,
    ocr := fun _ hint => match hint with
      | none => Except.ok "premier"
      | some _ => Except.ok "deuxieme",
    detect := fun _ => some "fr",
    translate := fun _ _ _ => Except.ok "translated",
    gs_languages := fun l => if l = "fr" then some "French" else none }

theorem c9_witness :
    countDetect (POST envC9 ⟨none, none, some "en",
        some ⟨"b", "f.jpg"⟩, some "jpg"⟩).2 = 1 ∧
    Event.detectCall "premier" ∈
      (POST envC9 ⟨none, none, some "en", some ⟨"b", "f.jpg"⟩, some "jpg"⟩).2 ∧
    Event.translateCall "deuxieme" (lower "en") none ∈
      (POST envC9 ⟨none, none, some "en", some ⟨"b", "f.jpg"⟩, some "jpg"⟩).2 ∧
    (POST envC9 ⟨none, none, some "en", some ⟨"b", "f.jpg"⟩, some "jpg"⟩).1 =
      Except.ok { detected :=
                    detectedDisplay envC9 ((envC9.detect "premier").getD "unk"),
                  text := "deuxieme", translation := "translated" } :=
  c9_detection_not_rerun envC9 "b" "f.jpg" "jpg" "en" "premier" "fra"
    "deuxieme" "translated" none (by decide) (by decide) (by decide) rfl rfl
    rfl rfl (by decide) rfl rfl (by decide) (by decide) rfl (by decide)

/-- C4: for every request whose target language is missing or (lower-cased)
not in `{en,de,it}`: no success response is possible and the translation
service is never called; moreover, for an image-mode request that passes
validation and whose extraction and detection succeed (here with a guess
outside the OCR table, so no retry), the storage write, the extraction pass
and the detection call are all still performed before the request is finally
rejected with the 400 target-language fault. -/
theorem c4_bad_target_rejected_late (env : Env) (req : Request)
    (hbad : ∀ t0, req.target = some t0 → lower t0 ∉ supported_languages) :
    (∀ r, (POST env req).1 ≠ Except.ok r) ∧
    countTranslate (POST env req).2 = 0 ∧
    (∀ v fn t1, req.text = none → req.source = none →
      req.image = some ⟨v, fn⟩ → req.filetype = some "jpg" →
      v.length ≠ 0 → fn.length ≠ 0 → env.storeOk = true →
      env.openImage ("uploads" ++ "/" ++ (env.image_id ++ "." ++ "jpg")) =
        true →
      env.ocr ("uploads" ++ "/" ++ (env.image_id ++ "." ++ "jpg")) none =
        Except.ok t1 →
      t1.length ≠ 0 → env.detect t1 = none →
      (Event.store ("uploads" ++ "/" ++ (env.image_id ++ "." ++ "jpg")) ∈
         (POST env req).2 ∧
       Event.extract ("uploads" ++ "/" ++ (env.image_id ++ "." ++ "jpg"))
           none ∈ (POST env req).2 ∧
       Event.detectCall t1 ∈ (POST env req).2 ∧
       (POST env req).1 = Except.error (Fault.badRequest
         (match req.target with
          | none => "No language to translate into specified."
          | some _ => "This target language is not supported.")))) := by
  rcases req with ⟨t, src, tg, im, ft⟩
  simp only at hbad
  refine ⟨?_, ?_, ?_⟩
  · intro r hok
    unfold POST at hok
    try dsimp only at hok
    obtain ⟨p, hX, hk⟩ := rbind_ok_inv _ _ r hok
    try dsimp only at hk
    obtain ⟨d, hB, hC⟩ := rbind_ok_inv _ _ r hk
    rcases tg with _ | t0
    · simp at hC
    · dsimp only at hC
      rw [if_pos (hbad t0 rfl)] at hC
      simp at hC
  · unfold POST
    dsimp only
    apply countP_rbind_zero
    · rcases im with _ | img
      · rfl
      · rcases t with _ | s
        · try dsimp only
          apply countP_rbind_zero
          · exact no_translate_imagePhase env img ft (normalize_source src)
          · intro r
            rfl
        · rfl
    · intro pr
      apply countP_rbind_zero
      · rcases t with _ | s
        · rfl
        · try dsimp only
          apply countP_rbind_zero
          · exact filter_zero_get_language isTranslate env _ rfl
          · intro d
            split
            · rfl
            · exact filter_zero_get_language_name isTranslate env d
      · intro dl
        rcases tg with _ | t0
        · rfl
        · try dsimp only
          rw [if_pos (hbad t0 rfl)]
          rfl
  · intro v fn t1 ht hs him hft hv hf hstore ho h1 ht1 hdet
    simp only at ht hs him hft
    subst ht
    subst hs
    subst him
    subst hft
    have hg : (env.detect t1).getD "unk" = "unk" := by rw [hdet]; rfl
    have hfin := finallyBlock_eval_noretry env
      ("uploads" ++ "/" ++ (env.image_id ++ "." ++ "jpg")) t1
      (upload_path_length _) ho h1 ht1 (by rw [hg]; rfl) (by rw [hg]; decide)
    rw [POST_image_mode]
    rw [show normalize_source none = none from rfl]
    rw [imagePhase_eval env ⟨v, fn⟩ "jpg" none hv hf (by decide)]
    rw [show lower "jpg" = "jpg" from rfl]
    rw [hfin]
    refine ⟨?_, ?_, ?_, ?_⟩
    · rcases tg with _ | t0
      · simp [rbind, hstore]
      · simp [rbind, hstore, if_pos (hbad _ rfl)]
    · rcases tg with _ | t0
      · simp [rbind, hstore]
      · simp [rbind, hstore, if_pos (hbad _ rfl)]
    · rcases tg with _ | t0
      · simp [rbind, hstore]
      · simp [rbind, hstore, if_pos (hbad _ rfl)]
    · rcases tg with _ | t0
      · simp [rbind, hstore]
      · simp [rbind, hstore, if_pos (hbad _ rfl)]

/-- Environment for the C4 witness. -/
def envC4 : Env :=
  { b64decode := id, image_id := "u", storeOk := true,
    openImage := fun _ => true,
    ocr := fun _ _ => Except.ok "txt",
    detect := fun _ => none,
    translate := fun _ _ _ => Except.ok "tr",
    gs_languages := fun _ => none }

/-- Request for the C4 witness: valid image upload but unsupported target
language `xx`. -/
def reqC4 : Request :=
  { text := none, source := none, target := some "xx",
    image := some { value := "bytes", filename := "a.jpg" },
    filetype := some "jpg" }

theorem c4_witness :
    (∀ r, (POST envC4 reqC4).1 ≠ Except.ok r) ∧
    countTranslate (POST envC4 reqC4).2 = 0 ∧
    (Event.store ("uploads" ++ "/" ++ (envC4.image_id ++ "." ++ "jpg")) ∈
       (POST envC4 reqC4).2 ∧
     Event.extract ("uploads" ++ "/" ++ (envC4.image_id ++ "." ++ "jpg"))
         none ∈ (POST envC4 reqC4).2 ∧
     Event.detectCall "txt" ∈ (POST envC4 reqC4).2 ∧
     (POST envC4 reqC4).1 = Except.error (Fault.badRequest
       "This target language is not supported.")) := by
  have h := c4_bad_target_rejected_late envC4 reqC4
    (by intro t0 ht0; cases ht0; decide)
  refine ⟨h.1, h.2.1, ?_⟩
  have h3 := h.2.2 "bytes" "a.jpg" "txt" rfl rfl rfl rfl (by decide)
    (by decide) rfl rfl rfl (by decide) rfl
  simpa using h3

theorem rbind_snd_head {α β : Type} (x : Except Fault α × List Event)
    (f : α → Except Fault β × List Event) (e : Event) (ts : List Event)
    (hx : x.2 = e :: ts) : ∃ rest, (rbind x f).2 = e :: rest := by
  rcases x with ⟨x1, t⟩
  simp only at hx
  subst hx
  cases x1 with
  | error e => exact ⟨ts, rfl⟩
  | ok a => exact ⟨ts ++ (f a).2, by simp [rbind]⟩

theorem normalize_source_mem (src : Option String) (s : String)
    (h : normalize_source src = some s) : s ∈ supported_languages := by
  rcases src with _ | s0
  · exact absurd h (by simp [normalize_source])
  · by_cases hm : lower s0 ∈ supported_languages
    · have he : normalize_source (some s0) = some (lower s0) := by
        simp [normalize_source, hm]
      rw [he] at h
      injection h with h2
      rw [← h2]
      exact hm
    · have he : normalize_source (some s0) = none := by
        simp [normalize_source, hm]
      rw [he] at h
      cases h

theorem finallyBlock_snd_head (env : Env) (path : String) (src : Option String)
    (hval : ∀ s, src = some s → s ∈ supported_languages) :
    ∃ hint rest, (finallyBlock env path src).2 =
      Event.extract path hint :: rest := by
  rcases src with _ | s0
  · refine ⟨none, ?_⟩
    unfold finallyBlock
    dsimp only
    exact rbind_snd_head (get_text env path none) _ _ [] rfl
  · obtain ⟨c0, hc0⟩ : ∃ c0, tesseract_code s0 = some c0 := by
      have hs0 := hval s0 rfl
      simp [supported_languages] at hs0
      rcases hs0 with rfl | rfl | rfl <;> exact ⟨_, rfl⟩
    refine ⟨some c0, ?_⟩
    unfold finallyBlock
    dsimp only
    rw [hc0]
    exact rbind_snd_head (get_text env path (some c0)) _ _ [] rfl

/-- Environment for the C10 counterexample: the storage write raises but
every other collaborator succeeds. -/
def envC10 : Env :=
  { b64decode := id, image_id := "id", storeOk := false,
    openImage := fun _ => true,
    ocr := fun _ hint => match hint with
      | none => Except.ok "first text"
      | some _ => Except.ok "second text",
    detect := fun _ => some "en",
    translate := fun _ _ _ => Except.ok "uebersetzung",
    gs_languages := fun _ => none }

/-- Request for the C10 counterexample: a fully valid image upload. -/
def reqC10 : Request :=
  { text := none, source := none, target := some "de",
    image := some { value := "bytes", filename := "a.jpg" },
    filetype := some "jpg" }

/-- C10 counterexample: the storage write raises while extraction,
detection and every later collaborator would succeed; extraction and
detection do run inside the `finally` block, but the surfaced outcome is
still the storage 500 — a success response can never surface, refuting the
claim's "(or even a success path)" possibility. -/
theorem c10_counterexample :
    (POST envC10 reqC10).1 =
      Except.error (Fault.internalError "Server: Could not store image.") ∧
    Event.extract ("uploads" ++ "/" ++ ("id" ++ "." ++ "jpg")) none ∈
      (POST envC10 reqC10).2 ∧
    Event.detectCall "first text" ∈ (POST envC10 reqC10).2 := by
  refine ⟨rfl, ?_, ?_⟩ <;> decide

/-- C10 (amended): if the storage write raises on a validated image-mode
request, the `finally` block still attempts extraction (the trace is the
storage attempt followed by the finally block's trace, which starts with an
extraction pass); a fault raised inside the finally block replaces the
pending storage 500 as the surfaced error, while if the finally block
completes without fault the storage 500 itself surfaces; in either case no
success response is possible. -/
theorem c10_store_failure_masked (env : Env) (v fn ft : String)
    (src tg : Option String)
    (hv : v.length ≠ 0) (hf : fn.length ≠ 0)
    (hft : lower ft ∈ supported_filetypes)
    (hstore : env.storeOk = false) :
    (POST env ⟨none, src, tg, some ⟨v, fn⟩, some ft⟩).2 =
      Event.store ("uploads" ++ "/" ++ (env.image_id ++ "." ++ lower ft)) ::
        (finallyBlock env
          ("uploads" ++ "/" ++ (env.image_id ++ "." ++ lower ft))
          (normalize_source src)).2 ∧
    (∃ hint rest, (POST env ⟨none, src, tg, some ⟨v, fn⟩, some ft⟩).2 =
      Event.store ("uploads" ++ "/" ++ (env.image_id ++ "." ++ lower ft)) ::
      Event.extract ("uploads" ++ "/" ++ (env.image_id ++ "." ++ lower ft))
        hint :: rest) ∧
    (∀ e, (finallyBlock env
        ("uploads" ++ "/" ++ (env.image_id ++ "." ++ lower ft))
        (normalize_source src)).1 = Except.error e →
      (POST env ⟨none, src, tg, some ⟨v, fn⟩, some ft⟩).1 = Except.error e) ∧
    (∀ r, (finallyBlock env
        ("uploads" ++ "/" ++ (env.image_id ++ "." ++ lower ft))
        (normalize_source src)).1 = Except.ok r →
      (POST env ⟨none, src, tg, some ⟨v, fn⟩, some ft⟩).1 =
        Except.error (Fault.internalError "Server: Could not store image.")) ∧
    (∀ resp, (POST env ⟨none, src, tg, some ⟨v, fn⟩, some ft⟩).1 ≠
      Except.ok resp) := by
  rw [POST_image_mode]
  rw [imagePhase_eval env ⟨v, fn⟩ ft (normalize_source src) hv hf hft]
  obtain ⟨hint, rest, hhead⟩ := finallyBlock_snd_head env
    ("uploads" ++ "/" ++ (env.image_id ++ "." ++ lower ft))
    (normalize_source src) (fun s hs => normalize_source_mem src s hs)
  have h1 : (rbind (rbind
      (match (finallyBlock env
          ("uploads" ++ "/" ++ (env.image_id ++ "." ++ lower ft))
          (normalize_source src)).1 with
        | Except.error e => Except.error e
        | Except.ok r =>
          if env.storeOk then Except.ok r
          else Except.error (Fault.internalError "Server: Could not store image."),
        Event.store ("uploads" ++ "/" ++ (env.image_id ++ "." ++ lower ft)) ::
          (finallyBlock env
            ("uploads" ++ "/" ++ (env.image_id ++ "." ++ lower ft))
            (normalize_source src)).2)
      (fun r => (Except.ok ((some r.1 : Option String), r.2),
                 ([] : List Event))))
    (fun p =>
      match tg with
      | none =>
        (Except.error
          (Fault.badRequest "No language to translate into specified."), [])
      | some t0 =>
        if lower t0 ∉ supported_languages then
          (Except.error
            (Fault.badRequest "This target language is not supported."), [])
        else
          rbind (get_translation env p.1 (lower t0) (normalize_source src))
            (fun translation => (get_json p.1 translation p.2, [])))).2 =
      Event.store ("uploads" ++ "/" ++ (env.image_id ++ "." ++ lower ft)) ::
        (finallyBlock env
          ("uploads" ++ "/" ++ (env.image_id ++ "." ++ lower ft))
          (normalize_source src)).2 := by
    cases hfin : (finallyBlock env
      ("uploads" ++ "/" ++ (env.image_id ++ "." ++ lower ft))
      (normalize_source src)).1 <;>
      simp only [hfin, rbind, hstore, Bool.false_eq_true, if_false]
  refine ⟨h1, ⟨hint, rest, by rw [h1, hhead]⟩, ?_, ?_, ?_⟩
  · intro e hfin
    simp only [hfin, rbind, hstore]
  · intro r hfin
    simp only [hfin, rbind, hstore, Bool.false_eq_true, if_false]
  · intro resp
    cases hfin : (finallyBlock env
      ("uploads" ++ "/" ++ (env.image_id ++ "." ++ lower ft))
      (normalize_source src)).1 <;>
      simp only [hfin, rbind, hstore, Bool.false_eq_true, if_false] <;>
      intro h <;> cases h

theorem c10_witness :
    (POST envC10 reqC10).2 =
      Event.store ("uploads" ++ "/" ++ (envC10.image_id ++ "." ++ lower "jpg")) ::
        (finallyBlock envC10
          ("uploads" ++ "/" ++ (envC10.image_id ++ "." ++ lower "jpg"))
          (normalize_source none)).2 ∧
    (POST envC10 reqC10).1 =
      Except.error (Fault.internalError "Server: Could not store image.") := by
  have h := c10_store_failure_masked envC10 "bytes" "a.jpg" "jpg" none
    (some "de") (by decide) (by decide) (by decide) rfl
  exact ⟨h.1, h.2.2.2.1 ("second text", "en") rfl⟩

end Rest
